import Mathlib

/-!
Verification of the bouncing-balls 2D elastic-collision kernel.

Shallow embedding of the physics kernel of the repository
(`Vector2d`, `QuadraticEquation`, `Ball`, `deoverlap`, `collide`,
per-tick integration `Ball.update`), with JavaScript numbers modelled
as real numbers and in-place mutation modelled by state passing:
a method that mutates `this` becomes a function returning the updated
receiver (and, for `collideBy`, also the untouched argument, mirroring
that the method writes no field of its argument).
-/

noncomputable section

/-- 2D vector, from `class Vector2d` (fields `x`, `y`). -/
@[ext]
structure Vector2d where
  x : ℝ
  y : ℝ

namespace Vector2d

/-- Source `innerProduct(vector)`: `this.x * vector.x + this.y * vector.y`. -/
def innerProduct (v w : Vector2d) : ℝ :=
  v.x * w.x + v.y * w.y

/-- Source `magnitudeSquare()`: `this.innerProduct(this)`. -/
def magnitudeSquare (v : Vector2d) : ℝ :=
  v.innerProduct v

/-- Source `norm()`: `Math.sqrt(this.magnitudeSquare())`. -/
def norm (v : Vector2d) : ℝ :=
  Real.sqrt v.magnitudeSquare

/-- Source `normalize()`: `new Vector2d(this.x / norm, this.y / norm)`. -/
def normalize (v : Vector2d) : Vector2d :=
  ⟨v.x / v.norm, v.y / v.norm⟩

/-- Source `negate()`: `new Vector2d(-this.x, -this.y)`. -/
def negate (v : Vector2d) : Vector2d :=
  ⟨-v.x, -v.y⟩

/-- Source `scaleBy(scalar)`: `new Vector2d(this.x * scalar, this.y * scalar)`. -/
def scaleBy (v : Vector2d) (scalar : ℝ) : Vector2d :=
  ⟨v.x * scalar, v.y * scalar⟩

/-- Source `add(vector)`: componentwise sum. -/
def add (v w : Vector2d) : Vector2d :=
  ⟨v.x + w.x, v.y + w.y⟩

/-- Source `minus(vector)`: `this.add(vector.negate())` (source comment: `v1-v2 = v1 + (-v2)`). -/
def minus (v w : Vector2d) : Vector2d :=
  v.add w.negate

/-- Source `distanceTo(vector)`: `this.minus(vector).norm()`. -/
def distanceTo (v w : Vector2d) : ℝ :=
  (v.minus w).norm

end Vector2d

/-- Coefficients of `ax^2 + bx + c = 0`, from `class QuadraticEquation`. -/
structure QuadraticEquation where
  a : ℝ
  b : ℝ
  c : ℝ

namespace QuadraticEquation

/-- Source `delta()`: `this.b ** 2 - 4 * this.a * this.c`. -/
def delta (q : QuadraticEquation) : ℝ :=
  q.b ^ 2 - 4 * q.a * q.c

/-- Source `numberOfRealRoots()`: `0` if `delta < 0`, `1` if `delta === 0`, else `2`. -/
def numberOfRealRoots (q : QuadraticEquation) : ℕ :=
  if q.delta < 0 then 0 else if q.delta = 0 then 1 else 2

/-- Source `roots()`: `[]`, `[firstTerm]`, or `[firstTerm + lastTerm, firstTerm - lastTerm]`
with `firstTerm = (-b) / (2a)` and `lastTerm = Math.sqrt(delta) / (2a)`
( `aa = 2 * this.a` inlined). -/
def roots (q : QuadraticEquation) : List ℝ :=
  if q.numberOfRealRoots = 0 then []
  else if q.numberOfRealRoots = 1 then [(-q.b) / (2 * q.a)]
  else [(-q.b) / (2 * q.a) + Real.sqrt q.delta / (2 * q.a),
        (-q.b) / (2 * q.a) - Real.sqrt q.delta / (2 * q.a)]

theorem numberOfRealRoots_of_delta_neg (q : QuadraticEquation) (h : q.delta < 0) :
    q.numberOfRealRoots = 0 := by
  simp only [numberOfRealRoots]
  rw [if_pos h]

theorem numberOfRealRoots_of_delta_zero (q : QuadraticEquation) (h : q.delta = 0) :
    q.numberOfRealRoots = 1 := by
  simp only [numberOfRealRoots]
  rw [if_neg (by rw [h]; exact lt_irrefl 0), if_pos h]

theorem numberOfRealRoots_of_delta_pos (q : QuadraticEquation) (h : 0 < q.delta) :
    q.numberOfRealRoots = 2 := by
  simp only [numberOfRealRoots]
  rw [if_neg (not_lt.2 h.le), if_neg h.ne']

theorem roots_of_delta_neg (q : QuadraticEquation) (h : q.delta < 0) :
    q.roots = [] := by
  simp only [roots, numberOfRealRoots_of_delta_neg q h]
  rfl

theorem roots_of_delta_zero (q : QuadraticEquation) (h : q.delta = 0) :
    q.roots = [(-q.b) / (2 * q.a)] := by
  simp only [roots, numberOfRealRoots_of_delta_zero q h]
  rfl

theorem roots_of_delta_pos (q : QuadraticEquation) (h : 0 < q.delta) :
    q.roots = [(-q.b) / (2 * q.a) + Real.sqrt q.delta / (2 * q.a),
               (-q.b) / (2 * q.a) - Real.sqrt q.delta / (2 * q.a)] := by
  simp only [roots, numberOfRealRoots_of_delta_pos q h]
  rfl

end QuadraticEquation

/-- C6: for `a ≠ 0`, `numberOfRealRoots` is 0 / 1 / 2 according to the sign of
`delta = b² − 4ac`; `roots` returns that many values, in the 2-root case exactly
`firstTerm + lastTerm` and `firstTerm − lastTerm` with `firstTerm = −b/(2a)` and
`lastTerm = √delta/(2a)`; and the three concrete instances
`(1,0,-4) ↦ [2,-2]`, `(1,2,1) ↦ [-1]`, `(1,0,1) ↦ []` hold. -/
theorem C6_quadratic_solver :
    (∀ a b c : ℝ, a ≠ 0 →
      ((QuadraticEquation.mk a b c).delta < 0 →
        (QuadraticEquation.mk a b c).numberOfRealRoots = 0 ∧
        (QuadraticEquation.mk a b c).roots = []) ∧
      ((QuadraticEquation.mk a b c).delta = 0 →
        (QuadraticEquation.mk a b c).numberOfRealRoots = 1 ∧
        (QuadraticEquation.mk a b c).roots = [(-b) / (2 * a)]) ∧
      (0 < (QuadraticEquation.mk a b c).delta →
        (QuadraticEquation.mk a b c).numberOfRealRoots = 2 ∧
        (QuadraticEquation.mk a b c).roots =
          [(-b) / (2 * a) + Real.sqrt ((QuadraticEquation.mk a b c).delta) / (2 * a),
           (-b) / (2 * a) - Real.sqrt ((QuadraticEquation.mk a b c).delta) / (2 * a)]) ∧
      ((QuadraticEquation.mk a b c).roots).length =
        (QuadraticEquation.mk a b c).numberOfRealRoots) ∧
    (QuadraticEquation.mk 1 0 (-4)).numberOfRealRoots = 2 ∧
    (QuadraticEquation.mk 1 0 (-4)).roots = [2, -2] ∧
    (QuadraticEquation.mk 1 2 1).numberOfRealRoots = 1 ∧
    (QuadraticEquation.mk 1 2 1).roots = [-1] ∧
    (QuadraticEquation.mk 1 0 1).numberOfRealRoots = 0 ∧
    (QuadraticEquation.mk 1 0 1).roots = [] := by
  have hd1 : (QuadraticEquation.mk (1 : ℝ) 0 (-4)).delta = 16 := by
    simp only [QuadraticEquation.delta]; norm_num
  have hd2 : (QuadraticEquation.mk (1 : ℝ) 2 1).delta = 0 := by
    simp only [QuadraticEquation.delta]; norm_num
  have hd3 : (QuadraticEquation.mk (1 : ℝ) 0 1).delta = -4 := by
    simp only [QuadraticEquation.delta]; norm_num
  have hs16 : Real.sqrt 16 = 4 := by
    rw [show (16 : ℝ) = 4 ^ 2 by norm_num, Real.sqrt_sq (by norm_num)]
  refine ⟨?_, ?_, ?_, ?_, ?_, ?_, ?_⟩
  · intro a b c _
    refine ⟨?_, ?_, ?_, ?_⟩
    · intro h
      exact ⟨QuadraticEquation.numberOfRealRoots_of_delta_neg _ h,
             QuadraticEquation.roots_of_delta_neg _ h⟩
    · intro h
      exact ⟨QuadraticEquation.numberOfRealRoots_of_delta_zero _ h,
             QuadraticEquation.roots_of_delta_zero _ h⟩
    · intro h
      exact ⟨QuadraticEquation.numberOfRealRoots_of_delta_pos _ h,
             QuadraticEquation.roots_of_delta_pos _ h⟩
    · rcases lt_trichotomy (QuadraticEquation.mk a b c).delta 0 with h | h | h
      · rw [QuadraticEquation.numberOfRealRoots_of_delta_neg _ h,
            QuadraticEquation.roots_of_delta_neg _ h]
        rfl
      · rw [QuadraticEquation.numberOfRealRoots_of_delta_zero _ h,
            QuadraticEquation.roots_of_delta_zero _ h]
        rfl
      · rw [QuadraticEquation.numberOfRealRoots_of_delta_pos _ h,
            QuadraticEquation.roots_of_delta_pos _ h]
        rfl
  · exact QuadraticEquation.numberOfRealRoots_of_delta_pos _ (by rw [hd1]; norm_num)
  · rw [QuadraticEquation.roots_of_delta_pos _ (by rw [hd1]; norm_num), hd1, hs16]
    norm_num
  · exact QuadraticEquation.numberOfRealRoots_of_delta_zero _ hd2
  · rw [QuadraticEquation.roots_of_delta_zero _ hd2]
    norm_num
  · exact QuadraticEquation.numberOfRealRoots_of_delta_neg _ (by rw [hd3]; norm_num)
  · exact QuadraticEquation.roots_of_delta_neg _ (by rw [hd3]; norm_num)

/-- C6 witness: the general part instantiated at `a = 1, b = 0, c = -4`. -/
theorem C6_quadratic_solver_witness :
    ((QuadraticEquation.mk (1 : ℝ) 0 (-4)).roots).length =
      (QuadraticEquation.mk (1 : ℝ) 0 (-4)).numberOfRealRoots :=
  (C6_quadratic_solver.1 1 0 (-4) (by norm_num)).2.2.2

/-- A ball, from `class Ball implements PhysicalBody, Drawable`
(fields `position`, `velocity`, `color`, `radius`, `coefficientOfMass`). -/
@[ext]
structure Ball where
  position : Vector2d
  velocity : Vector2d
  color : String
  radius : ℝ
  coefficientOfMass : ℝ

namespace Ball

/-- The `Ball` constructor: `coefficientOfMass` is always set to `10`. -/
def make (x y velocityX velocityY : ℝ) (color : String) (radius : ℝ) : Ball :=
  { position := ⟨x, y⟩
    velocity := ⟨velocityX, velocityY⟩
    color := color
    radius := radius
    coefficientOfMass := 10 }

/-- Source `Ball.copy`: JSON round trip then the constructor, i.e. a new `Ball` built from
the source ball's position, velocity, color and radius (the constructor resets
`coefficientOfMass` to `10`). -/
def copy (ball : Ball) : Ball :=
  make ball.position.x ball.position.y ball.velocity.x ball.velocity.y ball.color ball.radius

/-- Source `getMass()`: `coefficientOfMass * Math.PI * radius ** 2`. -/
def getMass (b : Ball) : ℝ :=
  b.coefficientOfMass * Real.pi * b.radius ^ 2

/-- Source `getMomentum()`: `velocity.scaleBy(getMass())`. -/
def getMomentum (b : Ball) : Vector2d :=
  b.velocity.scaleBy b.getMass

/-- Source `getKineticEnergy()`: `velocity.magnitudeSquare() * getMass() / 2`. -/
def getKineticEnergy (b : Ball) : ℝ :=
  b.velocity.magnitudeSquare * b.getMass / 2

/-- Source `update()`: negate `velocity.x` when `position.x + radius >= width` or
`position.x + radius <= 0` (note: `+ radius` on both sides), likewise for `y`
against `height`; then `position.addAssign(velocity)` with the updated velocity. -/
def update (width height : ℝ) (b : Ball) : Ball :=
  let vx := if b.position.x + b.radius ≥ width ∨ b.position.x + b.radius ≤ 0
            then -b.velocity.x else b.velocity.x
  let vy := if b.position.y + b.radius ≥ height ∨ b.position.y + b.radius ≤ 0
            then -b.velocity.y else b.velocity.y
  { b with velocity := ⟨vx, vy⟩, position := b.position.add ⟨vx, vy⟩ }

end Ball

/-- Source `getCollisionScaleFactor(b1, b2)`: `2 * b2.getMass() / (b1.getMass() + b2.getMass())`
(source comment: parameters' order affects the final result). -/
def getCollisionScaleFactor (b1 b2 : Ball) : ℝ :=
  2 * b2.getMass / (b1.getMass + b2.getMass)

/-- Source `collideBy(ball)`: mutates only `this.velocity` via
`velocity.minusAssign(diffPos.normalize().scaleBy(csf * diffPos.innerProduct(diffVel) / diffPos.norm()))`;
returned as (updated receiver, untouched argument). -/
def Ball.collideBy (self other : Ball) : Ball × Ball :=
  let diffPos := self.position.minus other.position
  let diffVel := self.velocity.minus other.velocity
  let csf := getCollisionScaleFactor self other
  let impulse := (diffPos.normalize).scaleBy (csf * diffPos.innerProduct diffVel / diffPos.norm)
  ({ self with velocity := self.velocity.minus impulse }, other)

/-- Source `collide(b1, b2)`: `temp = Ball.copy(b1); b1.collideBy(b2); b2.collideBy(temp)`. -/
def collide (b1 b2 : Ball) : Ball × Ball :=
  let temp := Ball.copy b1
  let s1 := b1.collideBy b2
  let s2 := s1.2.collideBy temp
  (s1.1, s2.1)

/-- A ball whose `coefficientOfMass` is the constructor's `10` is its own copy. -/
theorem Ball.copy_eq (b : Ball) (hk : b.coefficientOfMass = 10) : Ball.copy b = b := by
  obtain ⟨⟨px, py⟩, ⟨vx, vy⟩, c, r, k⟩ := b
  simp only [Ball.copy, Ball.make] at hk ⊢
  rw [hk]

/-- The quadratic built inside `deoverlap`, after the one-tick rewind:
`new QuadraticEquation(dv.magnitudeSquare(), dx.innerProduct(dv),
dx.magnitudeSquare() - (b1.radius + b2.radius))` where `dx`, `dv` are the
relative position and velocity in the rewound frame. -/
def deoverlapQE (b1 b2 : Ball) : QuadraticEquation :=
  let p1 := b1.position.minus b1.velocity
  let p2 := b2.position.minus b2.velocity
  let dx := p1.minus p2
  let dv := b1.velocity.minus b2.velocity
  ⟨dv.magnitudeSquare, dx.innerProduct dv, dx.magnitudeSquare - (b1.radius + b2.radius)⟩

/-- One iteration of the `for (const root of roots)` loop in `deoverlap`:
if `-1 < root && root < 1`, both positions gain `velocity.scaleBy(root)`. -/
def deoverlapStep (v1 v2 : Vector2d) (pq : Vector2d × Vector2d) (root : ℝ) :
    Vector2d × Vector2d :=
  if -1 < root ∧ root < 1
  then (pq.1.add (v1.scaleBy root), pq.2.add (v2.scaleBy root))
  else pq

/-- The positions produced by `deoverlap`: start from the rewound positions
(`position.minusAssign(velocity)`) and run the root loop. -/
def deoverlapPositions (b1 b2 : Ball) : Vector2d × Vector2d :=
  (deoverlapQE b1 b2).roots.foldl (deoverlapStep b1.velocity b2.velocity)
    (b1.position.minus b1.velocity, b2.position.minus b2.velocity)

/-- Source `deoverlap(b1, b2)`: mutates only the two positions. -/
def deoverlap (b1 b2 : Ball) : Ball × Ball :=
  ({ b1 with position := (deoverlapPositions b1 b2).1 },
   { b2 with position := (deoverlapPositions b1 b2).2 })

/-- The body of `collisionDetect` for a detected colliding pair:
`deoverlap(this, ball); collide(this, ball); ball.color = this.color = randomRGB()`,
with the freshly generated color passed in as `newColor`. -/
def handleCollidingPair (b1 b2 : Ball) (newColor : String) : Ball × Ball :=
  let d := deoverlap b1 b2
  let c := collide d.1 d.2
  ({ c.1 with color := newColor }, { c.2 with color := newColor })

/-- C10: `collideBy` updates only the receiver's velocity: the receiver's
position, radius, color and mass coefficient are unchanged, and the argument
ball is returned untouched. -/
theorem C10_collideBy_frame (self other : Ball) (h : self.position ≠ other.position) :
    (self.collideBy other).1.position = self.position ∧
    (self.collideBy other).1.radius = self.radius ∧
    (self.collideBy other).1.color = self.color ∧
    (self.collideBy other).1.coefficientOfMass = self.coefficientOfMass ∧
    (self.collideBy other).2 = other := by
  simp [Ball.collideBy]

/-- C10 witness: the frame property at a concrete pair of balls. -/
theorem C10_collideBy_frame_witness :
    ((Ball.make 0 0 1 0 "wa" 1).collideBy (Ball.make 3 0 0 0 "wb" 1)).1.position =
      (Ball.make 0 0 1 0 "wa" 1).position ∧
    ((Ball.make 0 0 1 0 "wa" 1).collideBy (Ball.make 3 0 0 0 "wb" 1)).1.radius =
      (Ball.make 0 0 1 0 "wa" 1).radius ∧
    ((Ball.make 0 0 1 0 "wa" 1).collideBy (Ball.make 3 0 0 0 "wb" 1)).1.color =
      (Ball.make 0 0 1 0 "wa" 1).color ∧
    ((Ball.make 0 0 1 0 "wa" 1).collideBy (Ball.make 3 0 0 0 "wb" 1)).1.coefficientOfMass =
      (Ball.make 0 0 1 0 "wa" 1).coefficientOfMass ∧
    ((Ball.make 0 0 1 0 "wa" 1).collideBy (Ball.make 3 0 0 0 "wb" 1)).2 =
      Ball.make 3 0 0 0 "wb" 1 :=
  C10_collideBy_frame (Ball.make 0 0 1 0 "wa" 1) (Ball.make 3 0 0 0 "wb" 1)
    (by norm_num [Ball.make, Vector2d.mk.injEq])

/-- C4: `collide` snapshots `b1` (a full value-copy, given the constructor's
`coefficientOfMass = 10`), updates `b1`'s velocity against `b2`'s original state
and `b2`'s velocity against `b1`'s original (pre-mutation) position and velocity,
each side by `vel -= normalize(diffPos) · (scaleFactor · (diffPos·diffVel) / |diffPos|)`
with `scaleFactor = 2·mass(other)/(mass(self)+mass(other))`. -/
theorem C4_collide_structure (b1 b2 : Ball) (hk : b1.coefficientOfMass = 10) :
    (collide b1 b2).1.velocity =
      b1.velocity.minus (((b1.position.minus b2.position).normalize).scaleBy
        (getCollisionScaleFactor b1 b2 *
          ((b1.position.minus b2.position).innerProduct (b1.velocity.minus b2.velocity)) /
          (b1.position.minus b2.position).norm)) ∧
    (collide b1 b2).2.velocity =
      b2.velocity.minus (((b2.position.minus b1.position).normalize).scaleBy
        (getCollisionScaleFactor b2 b1 *
          ((b2.position.minus b1.position).innerProduct (b2.velocity.minus b1.velocity)) /
          (b2.position.minus b1.position).norm)) ∧
    Ball.copy b1 = b1 := by
  have hc : Ball.copy b1 = b1 := Ball.copy_eq b1 hk
  refine ⟨?_, ?_, hc⟩
  · simp [collide, Ball.collideBy]
  · simp [collide, Ball.collideBy, hc]

/-- C4 witness: the pre-mutation snapshot is a full value-copy at a concrete ball. -/
theorem C4_collide_structure_witness :
    Ball.copy (Ball.make 1 1 1 0 "w4a" 1) = Ball.make 1 1 1 0 "w4a" 1 :=
  (C4_collide_structure (Ball.make 1 1 1 0 "w4a" 1) (Ball.make 2 1 0 0 "w4b" 1) rfl).2.2

theorem Ball.update_velocity_x (width height : ℝ) (b : Ball) :
    (Ball.update width height b).velocity.x =
      if b.position.x + b.radius ≥ width ∨ b.position.x + b.radius ≤ 0
      then -b.velocity.x else b.velocity.x :=
  rfl

theorem Ball.update_velocity_y (width height : ℝ) (b : Ball) :
    (Ball.update width height b).velocity.y =
      if b.position.y + b.radius ≥ height ∨ b.position.y + b.radius ≤ 0
      then -b.velocity.y else b.velocity.y :=
  rfl

theorem Ball.update_position (width height : ℝ) (b : Ball) :
    (Ball.update width height b).position =
      b.position.add (Ball.update width height b).velocity :=
  rfl

/-- C8 counterexample: a ball at `x = 98` with radius `1` and x-velocity `10`
in a `100 × 100` world: its next position crosses `x = width` with its leading
edge (`98 + 10 + 1 > 100`), yet `update` leaves the x-velocity at `10`
(the check uses the current position), so the claim fails here. -/
theorem C8_boundary_counterexample :
    (Ball.make 98 50 10 0 "c8" 1).position.x + (Ball.make 98 50 10 0 "c8" 1).velocity.x +
        (Ball.make 98 50 10 0 "c8" 1).radius > 100 ∧
    (Ball.update 100 100 (Ball.make 98 50 10 0 "c8" 1)).velocity.x = 10 ∧
    ((10 : ℝ) ≠ -10) := by
  refine ⟨by norm_num [Ball.make], ?_, by norm_num⟩
  rw [Ball.update_velocity_x, if_neg (by norm_num [Ball.make])]
  norm_num [Ball.make]

/-- C8 (amended): the boundary check uses the ball's CURRENT position and
`position + radius` against both sides of each axis: the x-velocity is negated
exactly when `position.x + radius ≥ width` or `position.x + radius ≤ 0`
(similarly for y against `height`), and the position is then advanced by the
possibly-negated velocity (never clipped). -/
theorem C8_boundary_reflection (width height : ℝ) (b : Ball) :
    (b.position.x + b.radius ≥ width ∨ b.position.x + b.radius ≤ 0 →
      (Ball.update width height b).velocity.x = -b.velocity.x) ∧
    (b.position.x + b.radius < width ∧ 0 < b.position.x + b.radius →
      (Ball.update width height b).velocity.x = b.velocity.x) ∧
    (b.position.y + b.radius ≥ height ∨ b.position.y + b.radius ≤ 0 →
      (Ball.update width height b).velocity.y = -b.velocity.y) ∧
    (b.position.y + b.radius < height ∧ 0 < b.position.y + b.radius →
      (Ball.update width height b).velocity.y = b.velocity.y) ∧
    (Ball.update width height b).position =
      b.position.add (Ball.update width height b).velocity := by
  refine ⟨?_, ?_, ?_, ?_, Ball.update_position width height b⟩
  · intro hc
    rw [Ball.update_velocity_x, if_pos hc]
  · intro hc
    rw [Ball.update_velocity_x, if_neg (by push_neg; exact ⟨hc.1, hc.2⟩)]
  · intro hc
    rw [Ball.update_velocity_y, if_pos hc]
  · intro hc
    rw [Ball.update_velocity_y, if_neg (by push_neg; exact ⟨hc.1, hc.2⟩)]

/-- C8 witness: a ball whose right edge has reached `x = width` gets its
x-velocity negated. -/
theorem C8_boundary_reflection_witness :
    (Ball.update 100 100 (Ball.make 99 50 3 4 "w8" 2)).velocity.x = -3 := by
  have h := (C8_boundary_reflection 100 100 (Ball.make 99 50 3 4 "w8" 2)).1
    (by norm_num [Ball.make])
  simpa [Ball.make] using h

theorem foldl_deoverlapStep_of_none (v1 v2 : Vector2d) (l : List ℝ)
    (h : ∀ t ∈ l, ¬(-1 < t ∧ t < 1)) (init : Vector2d × Vector2d) :
    l.foldl (deoverlapStep v1 v2) init = init := by
  induction l generalizing init with
  | nil => rfl
  | cons a as ih =>
    rw [List.foldl_cons]
    have ha : deoverlapStep v1 v2 init a = init := by
      simp only [deoverlapStep]
      rw [if_neg (h a (List.mem_cons_self a as))]
    rw [ha]
    exact ih (fun t ht => h t (List.mem_cons_of_mem a ht)) init

/-- C7 (amended): when no root of the overlap quadratic lies in `(-1, 1)`
(in particular when there are no real roots), `deoverlap` applies no forward
correction, but it does NOT undo its unconditional rewind: each body ends at
its already-integrated position MINUS one tick of its velocity
(velocities are untouched). -/
theorem C7_no_root_leaves_rewound (b1 b2 : Ball)
    (h : ∀ t ∈ (deoverlapQE b1 b2).roots, ¬(-1 < t ∧ t < 1)) :
    (deoverlap b1 b2).1.position = b1.position.minus b1.velocity ∧
    (deoverlap b1 b2).2.position = b2.position.minus b2.velocity ∧
    (deoverlap b1 b2).1.velocity = b1.velocity ∧
    (deoverlap b1 b2).2.velocity = b2.velocity := by
  have hp : deoverlapPositions b1 b2 =
      (b1.position.minus b1.velocity, b2.position.minus b2.velocity) :=
    foldl_deoverlapStep_of_none _ _ _ h _
  exact ⟨by rw [deoverlap, hp], by rw [deoverlap, hp], rfl, rfl⟩

theorem C7_concrete_qe :
    deoverlapQE (Ball.make (-1) 0 (-3) 0 "c7a" 1) (Ball.make 0 0 0 0 "c7b" 1) =
      QuadraticEquation.mk 9 (-6) 2 := by
  simp only [deoverlapQE, Ball.make, Vector2d.minus, Vector2d.add, Vector2d.negate,
    Vector2d.magnitudeSquare, Vector2d.innerProduct, QuadraticEquation.mk.injEq]
  norm_num

theorem C7_concrete_roots_nil :
    (deoverlapQE (Ball.make (-1) 0 (-3) 0 "c7a" 1) (Ball.make 0 0 0 0 "c7b" 1)).roots
      = [] := by
  rw [C7_concrete_qe]
  exact QuadraticEquation.roots_of_delta_neg _
    (by simp only [QuadraticEquation.delta]; norm_num)

/-- C7 counterexample: an overlapping pair whose quadratic has no real roots:
`deoverlap` moves `b1` from `(-1, 0)` to its rewound position `(2, 0)` instead
of leaving it where the integration step had put it, refuting the claim that
the corrector leaves state unchanged in the no-root case. -/
theorem C7_no_root_counterexample :
    (Ball.make (-1) 0 (-3) 0 "c7a" 1).position.distanceTo
        (Ball.make 0 0 0 0 "c7b" 1).position <
      (Ball.make (-1) 0 (-3) 0 "c7a" 1).radius + (Ball.make 0 0 0 0 "c7b" 1).radius ∧
    (deoverlapQE (Ball.make (-1) 0 (-3) 0 "c7a" 1) (Ball.make 0 0 0 0 "c7b" 1)).roots
      = [] ∧
    (deoverlap (Ball.make (-1) 0 (-3) 0 "c7a" 1) (Ball.make 0 0 0 0 "c7b" 1)).1.position
      = Vector2d.mk 2 0 ∧
    Vector2d.mk 2 0 ≠ (Ball.make (-1) 0 (-3) 0 "c7a" 1).position := by
  refine ⟨?_, C7_concrete_roots_nil, ?_, ?_⟩
  · simp only [Vector2d.distanceTo, Vector2d.minus, Vector2d.add, Vector2d.negate,
      Vector2d.norm, Vector2d.magnitudeSquare, Vector2d.innerProduct, Ball.make]
    rw [show ((-1 : ℝ) + -0) * (-1 + -0) + (0 + -0) * (0 + -0) = 1 ^ 2 by norm_num,
      Real.sqrt_sq (by norm_num)]
    norm_num
  · rw [deoverlap]
    have hp : deoverlapPositions (Ball.make (-1) 0 (-3) 0 "c7a" 1)
        (Ball.make 0 0 0 0 "c7b" 1) =
        ((Ball.make (-1) 0 (-3) 0 "c7a" 1).position.minus
          (Ball.make (-1) 0 (-3) 0 "c7a" 1).velocity,
         (Ball.make 0 0 0 0 "c7b" 1).position.minus
          (Ball.make 0 0 0 0 "c7b" 1).velocity) := by
      rw [deoverlapPositions, C7_concrete_roots_nil]
      rfl
    rw [hp]
    simp only [Ball.make, Vector2d.minus, Vector2d.add, Vector2d.negate,
      Vector2d.mk.injEq]
    norm_num
  · simp only [Ball.make, ne_eq, Vector2d.mk.injEq]
    norm_num

/-- C7 witness: the amended theorem applied to the concrete no-root pair. -/
theorem C7_no_root_witness :
    (deoverlap (Ball.make (-1) 0 (-3) 0 "c7a" 1) (Ball.make 0 0 0 0 "c7b" 1)).1.position
      = (Ball.make (-1) 0 (-3) 0 "c7a" 1).position.minus
          (Ball.make (-1) 0 (-3) 0 "c7a" 1).velocity :=
  (C7_no_root_leaves_rewound (Ball.make (-1) 0 (-3) 0 "c7a" 1)
    (Ball.make 0 0 0 0 "c7b" 1)
    (by rw [C7_concrete_roots_nil]; simp)).1

/-- C9 (amended): for a pair with zero relative velocity the overlap quadratic
degenerates to `a = 0`, `b = 0`; no division-by-zero failure occurs (the sole
root contributes a zero displacement), but the unconditional rewind is not
undone: `deoverlap` returns both bodies at their pre-corrector positions MINUS
one tick of velocity, and collision resolution (`collide`) still runs on the
pair, followed by the recoloring. -/
theorem C9_zero_relative_velocity (b1 b2 : Ball) (h : b1.velocity = b2.velocity) :
    deoverlap b1 b2 =
      ({ b1 with position := b1.position.minus b1.velocity },
       { b2 with position := b2.position.minus b2.velocity }) ∧
    ∀ col : String, handleCollidingPair b1 b2 col =
      ({ (collide { b1 with position := b1.position.minus b1.velocity }
                  { b2 with position := b2.position.minus b2.velocity }).1
          with color := col },
       { (collide { b1 with position := b1.position.minus b1.velocity }
                  { b2 with position := b2.position.minus b2.velocity }).2
          with color := col }) := by
  have hdv : b1.velocity.minus b2.velocity = Vector2d.mk 0 0 := by
    rw [h]
    simp [Vector2d.minus, Vector2d.add, Vector2d.negate]
  have ha : (deoverlapQE b1 b2).a = 0 := by
    simp [deoverlapQE, hdv, Vector2d.magnitudeSquare, Vector2d.innerProduct]
  have hb : (deoverlapQE b1 b2).b = 0 := by
    simp [deoverlapQE, hdv, Vector2d.innerProduct]
  have hdelta : (deoverlapQE b1 b2).delta = 0 := by
    rw [QuadraticEquation.delta, ha, hb]
    ring
  have hroots : (deoverlapQE b1 b2).roots = [0] := by
    rw [QuadraticEquation.roots_of_delta_zero _ hdelta, ha, hb]
    norm_num
  have hp : deoverlapPositions b1 b2 =
      (b1.position.minus b1.velocity, b2.position.minus b2.velocity) := by
    rw [deoverlapPositions, hroots, List.foldl_cons, List.foldl_nil, deoverlapStep,
      if_pos (by norm_num : (-1 : ℝ) < 0 ∧ (0 : ℝ) < 1)]
    refine Prod.ext ?_ ?_ <;>
      · apply Vector2d.ext <;> simp [Vector2d.add, Vector2d.scaleBy]
  have hd : deoverlap b1 b2 =
      ({ b1 with position := b1.position.minus b1.velocity },
       { b2 with position := b2.position.minus b2.velocity }) := by
    rw [deoverlap, hp]
  exact ⟨hd, fun col => by rw [handleCollidingPair, hd]⟩

theorem C9_concrete_roots :
    (deoverlapQE (Ball.make 0 0 1 0 "c9a" 1) (Ball.make 1 0 1 0 "c9b" 1)).roots
      = [0] := by
  have hqe : deoverlapQE (Ball.make 0 0 1 0 "c9a" 1) (Ball.make 1 0 1 0 "c9b" 1) =
      QuadraticEquation.mk 0 0 (-1) := by
    simp only [deoverlapQE, Ball.make, Vector2d.minus, Vector2d.add, Vector2d.negate,
      Vector2d.magnitudeSquare, Vector2d.innerProduct, QuadraticEquation.mk.injEq]
    norm_num
  rw [hqe, QuadraticEquation.roots_of_delta_zero _
    (by simp only [QuadraticEquation.delta]; norm_num)]
  norm_num

/-- C9 counterexample: two overlapping balls with the same velocity `(1, 0)`:
`deoverlap` moves `b1` from `(0, 0)` to `(-1, 0)` (the rewound position), so the
corrector does NOT leave the positions as they were before it ran. -/
theorem C9_zero_relative_velocity_counterexample :
    (Ball.make 0 0 1 0 "c9a" 1).velocity = (Ball.make 1 0 1 0 "c9b" 1).velocity ∧
    (Ball.make 0 0 1 0 "c9a" 1).position.distanceTo
        (Ball.make 1 0 1 0 "c9b" 1).position <
      (Ball.make 0 0 1 0 "c9a" 1).radius + (Ball.make 1 0 1 0 "c9b" 1).radius ∧
    (deoverlap (Ball.make 0 0 1 0 "c9a" 1) (Ball.make 1 0 1 0 "c9b" 1)).1.position
      = Vector2d.mk (-1) 0 ∧
    Vector2d.mk (-1) 0 ≠ (Ball.make 0 0 1 0 "c9a" 1).position := by
  refine ⟨rfl, ?_, ?_, ?_⟩
  · simp only [Vector2d.distanceTo, Vector2d.minus, Vector2d.add, Vector2d.negate,
      Vector2d.norm, Vector2d.magnitudeSquare, Vector2d.innerProduct, Ball.make]
    rw [show ((0 : ℝ) + -1) * (0 + -1) + (0 + -0) * (0 + -0) = 1 ^ 2 by norm_num,
      Real.sqrt_sq (by norm_num)]
    norm_num
  · rw [deoverlap]
    have hp : deoverlapPositions (Ball.make 0 0 1 0 "c9a" 1)
        (Ball.make 1 0 1 0 "c9b" 1) =
        ((Ball.make 0 0 1 0 "c9a" 1).position.minus
          (Ball.make 0 0 1 0 "c9a" 1).velocity,
         (Ball.make 1 0 1 0 "c9b" 1).position.minus
          (Ball.make 1 0 1 0 "c9b" 1).velocity) := by
      rw [deoverlapPositions, C9_concrete_roots, List.foldl_cons, List.foldl_nil,
        deoverlapStep, if_pos (by norm_num : (-1 : ℝ) < 0 ∧ (0 : ℝ) < 1)]
      refine Prod.ext ?_ ?_ <;>
        · apply Vector2d.ext <;> simp [Vector2d.add, Vector2d.scaleBy]
    rw [hp]
    simp only [Ball.make, Vector2d.minus, Vector2d.add, Vector2d.negate,
      Vector2d.mk.injEq]
    norm_num
  · simp only [Ball.make, ne_eq, Vector2d.mk.injEq]
    norm_num

/-- C9 witness: the amended theorem applied to the concrete equal-velocity pair. -/
theorem C9_zero_relative_velocity_witness :
    deoverlap (Ball.make 0 0 1 0 "c9a" 1) (Ball.make 1 0 1 0 "c9b" 1) =
      ({ Ball.make 0 0 1 0 "c9a" 1 with
          position := (Ball.make 0 0 1 0 "c9a" 1).position.minus
            (Ball.make 0 0 1 0 "c9a" 1).velocity },
       { Ball.make 1 0 1 0 "c9b" 1 with
          position := (Ball.make 1 0 1 0 "c9b" 1).position.minus
            (Ball.make 1 0 1 0 "c9b" 1).velocity }) :=
  (C9_zero_relative_velocity (Ball.make 0 0 1 0 "c9a" 1)
    (Ball.make 1 0 1 0 "c9b" 1) rfl).1

/-- C1: evaluation of the overlap-correction quadratic at a concrete overlapping
pair: the code's constant coefficient is `|dx|² − (r1 + r2) = -4` (radius sum
UNSQUARED), while the claimed coefficient `|dx|² − (r1 + r2)²` is `-16`; the two
differ, so the corrector does not build the claimed quadratic. -/
theorem C1_constant_coefficient_eval :
    (Ball.make 1 0 1 0 "c1a" 2).position.distanceTo (Ball.make 0 0 0 0 "c1b" 2).position <
      (Ball.make 1 0 1 0 "c1a" 2).radius + (Ball.make 0 0 0 0 "c1b" 2).radius ∧
    (deoverlapQE (Ball.make 1 0 1 0 "c1a" 2) (Ball.make 0 0 0 0 "c1b" 2)).c = -4 ∧
    (((Ball.make 1 0 1 0 "c1a" 2).position.minus (Ball.make 1 0 1 0 "c1a" 2).velocity).minus
        ((Ball.make 0 0 0 0 "c1b" 2).position.minus
          (Ball.make 0 0 0 0 "c1b" 2).velocity)).magnitudeSquare -
      ((Ball.make 1 0 1 0 "c1a" 2).radius + (Ball.make 0 0 0 0 "c1b" 2).radius) ^ 2 =
      -16 ∧
    ((-4 : ℝ) ≠ -16) := by
  refine ⟨?_, ?_, ?_, by norm_num⟩
  · simp only [Vector2d.distanceTo, Vector2d.minus, Vector2d.add, Vector2d.negate,
      Vector2d.norm, Vector2d.magnitudeSquare, Vector2d.innerProduct, Ball.make]
    rw [show ((1 : ℝ) + -0) * (1 + -0) + (0 + -0) * (0 + -0) = 1 ^ 2 by norm_num,
      Real.sqrt_sq (by norm_num)]
    norm_num
  · simp only [deoverlapQE, Ball.make, Vector2d.minus, Vector2d.add, Vector2d.negate,
      Vector2d.magnitudeSquare, Vector2d.innerProduct]
    norm_num
  · simp only [Ball.make, Vector2d.minus, Vector2d.add, Vector2d.negate,
      Vector2d.magnitudeSquare, Vector2d.innerProduct]
    norm_num

theorem C2_concrete_roots :
    (deoverlapQE (Ball.make 3 0 2 0 "c2a" (19/8)) (Ball.make 0 0 0 0 "c2b" (19/8))).roots
      = [3/4, -5/4] := by
  have hqe : deoverlapQE (Ball.make 3 0 2 0 "c2a" (19/8)) (Ball.make 0 0 0 0 "c2b" (19/8))
      = QuadraticEquation.mk 4 2 (-15/4) := by
    simp only [deoverlapQE, Ball.make, Vector2d.minus, Vector2d.add, Vector2d.negate,
      Vector2d.magnitudeSquare, Vector2d.innerProduct, QuadraticEquation.mk.injEq]
    norm_num
  have hdelta : (QuadraticEquation.mk (4 : ℝ) 2 (-15/4)).delta = 64 := by
    simp only [QuadraticEquation.delta]; norm_num
  rw [hqe, QuadraticEquation.roots_of_delta_pos _ (by rw [hdelta]; norm_num), hdelta,
    show (64 : ℝ) = 8 ^ 2 by norm_num, Real.sqrt_sq (by norm_num)]
  norm_num

/-- C2: at a concrete overlapping pair the corrector accepts the root `t = 3/4`
of its quadratic, yet after the correction the centers are `5/2` apart while the
radius sum is `19/4`: the accepted root does NOT place the bodies at contact
distance (consequence of the unsquared radius sum and the missing factor 2 on
the linear coefficient). -/
theorem C2_contact_distance_eval :
    (Ball.make 3 0 2 0 "c2a" (19/8)).position.distanceTo
        (Ball.make 0 0 0 0 "c2b" (19/8)).position <
      (Ball.make 3 0 2 0 "c2a" (19/8)).radius + (Ball.make 0 0 0 0 "c2b" (19/8)).radius ∧
    (deoverlapQE (Ball.make 3 0 2 0 "c2a" (19/8)) (Ball.make 0 0 0 0 "c2b" (19/8))).roots
      = [3/4, -5/4] ∧
    ((-1 : ℝ) < 3/4 ∧ (3/4 : ℝ) < 1) ∧
    (deoverlap (Ball.make 3 0 2 0 "c2a" (19/8))
        (Ball.make 0 0 0 0 "c2b" (19/8))).1.position.distanceTo
      (deoverlap (Ball.make 3 0 2 0 "c2a" (19/8))
        (Ball.make 0 0 0 0 "c2b" (19/8))).2.position = 5/2 ∧
    ((5 / 2 : ℝ) ≠ (Ball.make 3 0 2 0 "c2a" (19/8)).radius +
      (Ball.make 0 0 0 0 "c2b" (19/8)).radius) := by
  refine ⟨?_, C2_concrete_roots, by norm_num, ?_, by norm_num [Ball.make]⟩
  · simp only [Vector2d.distanceTo, Vector2d.minus, Vector2d.add, Vector2d.negate,
      Vector2d.norm, Vector2d.magnitudeSquare, Vector2d.innerProduct, Ball.make]
    rw [show ((3 : ℝ) + -0) * (3 + -0) + (0 + -0) * (0 + -0) = 3 ^ 2 by norm_num,
      Real.sqrt_sq (by norm_num)]
    norm_num
  · have hp : deoverlapPositions (Ball.make 3 0 2 0 "c2a" (19/8))
        (Ball.make 0 0 0 0 "c2b" (19/8)) = (Vector2d.mk (5/2) 0, Vector2d.mk 0 0) := by
      rw [deoverlapPositions, C2_concrete_roots, List.foldl_cons, List.foldl_cons,
        List.foldl_nil, deoverlapStep, if_neg (by norm_num : ¬((-1 : ℝ) < -5/4 ∧ (-5/4 : ℝ) < 1))]
      rw [deoverlapStep, if_pos (by norm_num : (-1 : ℝ) < 3/4 ∧ (3/4 : ℝ) < 1)]
      refine Prod.ext ?_ ?_ <;>
        · apply Vector2d.ext <;>
            simp [Ball.make, Vector2d.add, Vector2d.scaleBy, Vector2d.minus,
              Vector2d.negate] <;> norm_num
    rw [deoverlap]
    simp only [hp]
    simp only [Vector2d.distanceTo, Vector2d.minus, Vector2d.add, Vector2d.negate,
      Vector2d.norm, Vector2d.magnitudeSquare, Vector2d.innerProduct]
    rw [show ((5/2 : ℝ) + -0) * (5/2 + -0) + (0 + -0) * (0 + -0) = (5/2) ^ 2 by norm_num,
      Real.sqrt_sq (by norm_num)]

/-- C3: a resolved collision (`collide`: `b1.collideBy(b2)` then
`b2.collideBy(copy of pre-mutation b1)`) conserves total momentum exactly in
real arithmetic: `mass·velocity` summed over the pair is unchanged
(the mass coefficient `10` is the constructor's invariant, needed because the
serialization copy rebuilds `b1` through the constructor). -/
theorem C3_momentum_conservation (b1 b2 : Ball) (hpos : b1.position ≠ b2.position)
    (hk : b1.coefficientOfMass = 10) :
    ((collide b1 b2).1.getMomentum).add ((collide b1 b2).2.getMomentum) =
      (b1.getMomentum).add (b2.getMomentum) := by
  have hc : Ball.copy b1 = b1 := Ball.copy_eq b1 hk
  obtain ⟨⟨p1x, p1y⟩, ⟨v1x, v1y⟩, c1, r1, k1⟩ := b1
  obtain ⟨⟨p2x, p2y⟩, ⟨v2x, v2y⟩, c2, r2, k2⟩ := b2
  simp only [collide, hc, Ball.collideBy, Ball.getMomentum, Ball.getMass,
    getCollisionScaleFactor, Vector2d.minus, Vector2d.add, Vector2d.negate,
    Vector2d.normalize, Vector2d.norm, Vector2d.magnitudeSquare, Vector2d.innerProduct,
    Vector2d.scaleBy, Vector2d.mk.injEq]
  rw [show (p2x + -p1x) * (p2x + -p1x) + (p2y + -p1y) * (p2y + -p1y)
        = (p1x + -p2x) * (p1x + -p2x) + (p1y + -p2y) * (p1y + -p2y) by ring]
  rw [show k2 * Real.pi * r2 ^ 2 + k1 * Real.pi * r1 ^ 2
        = k1 * Real.pi * r1 ^ 2 + k2 * Real.pi * r2 ^ 2 by ring]
  constructor <;> ring

/-- C3 witness: momentum conservation at a concrete pair of balls. -/
theorem C3_momentum_conservation_witness :
    ((collide (Ball.make 0 0 2 0 "w3a" 1) (Ball.make 4 0 (-2) 0 "w3b" 1)).1.getMomentum).add
        ((collide (Ball.make 0 0 2 0 "w3a" 1) (Ball.make 4 0 (-2) 0 "w3b" 1)).2.getMomentum)
      = ((Ball.make 0 0 2 0 "w3a" 1).getMomentum).add
          ((Ball.make 4 0 (-2) 0 "w3b" 1).getMomentum) :=
  C3_momentum_conservation (Ball.make 0 0 2 0 "w3a" 1) (Ball.make 4 0 (-2) 0 "w3b" 1)
    (by norm_num [Ball.make, Vector2d.mk.injEq]) rfl

/-- C5: two balls of equal radius (hence equal mass) in head-on contact along
the x axis (centers `2r` apart, same `y`), with velocities `(5, 0)` and
`(-5, 0)`: `collide` swaps the velocities exactly. -/
theorem C5_headon_swap (x2 y r : ℝ) (c1 c2 : String) (hr : 0 < r) (d : ℝ)
    (hd : d = 2 * r ∨ d = -(2 * r)) :
    (collide (Ball.make (x2 + d) y 5 0 c1 r) (Ball.make x2 y (-5) 0 c2 r)).1.velocity =
      Vector2d.mk (-5) 0 ∧
    (collide (Ball.make (x2 + d) y 5 0 c1 r) (Ball.make x2 y (-5) 0 c2 r)).2.velocity =
      Vector2d.mk 5 0 := by
  have hrne : r ≠ 0 := hr.ne'
  have hπ : Real.pi ≠ 0 := Real.pi_ne_zero
  rcases hd with hd | hd <;> subst hd <;>
    simp only [collide, Ball.copy, Ball.make, Ball.collideBy, getCollisionScaleFactor,
      Ball.getMass, Vector2d.minus, Vector2d.add, Vector2d.negate, Vector2d.normalize,
      Vector2d.norm, Vector2d.magnitudeSquare, Vector2d.innerProduct, Vector2d.scaleBy,
      Vector2d.mk.injEq]
  · rw [show (x2 + 2 * r + -x2) * (x2 + 2 * r + -x2) + (y + -y) * (y + -y)
          = (2 * r) ^ 2 by ring,
        show (x2 + -(x2 + 2 * r)) * (x2 + -(x2 + 2 * r)) + (y + -y) * (y + -y)
          = (2 * r) ^ 2 by ring,
        Real.sqrt_sq (by positivity)]
    rw [show (10 : ℝ) * Real.pi * r ^ 2 + 10 * Real.pi * r ^ 2 = 20 * Real.pi * r ^ 2
          by ring]
    refine ⟨⟨?_, ?_⟩, ?_, ?_⟩ <;> field_simp <;> ring
  · rw [show (x2 + -(2 * r) + -x2) * (x2 + -(2 * r) + -x2) + (y + -y) * (y + -y)
          = (2 * r) ^ 2 by ring,
        show (x2 + -(x2 + -(2 * r))) * (x2 + -(x2 + -(2 * r))) + (y + -y) * (y + -y)
          = (2 * r) ^ 2 by ring,
        Real.sqrt_sq (by positivity)]
    rw [show (10 : ℝ) * Real.pi * r ^ 2 + 10 * Real.pi * r ^ 2 = 20 * Real.pi * r ^ 2
          by ring]
    refine ⟨⟨?_, ?_⟩, ?_, ?_⟩ <;> field_simp <;> ring

/-- C5 witness: the swap at `r = 1`, centers `(2, 0)` and `(0, 0)`. -/
theorem C5_headon_swap_witness :
    (collide (Ball.make (0 + 2) 0 5 0 "w5a" 1) (Ball.make 0 0 (-5) 0 "w5b" 1)).1.velocity =
      Vector2d.mk (-5) 0 :=
  (C5_headon_swap 0 0 1 "w5a" "w5b" one_pos 2 (Or.inl (by norm_num))).1

end
